import Mathlib

set_option linter.all false

/-!
Shallow embedding of the Reddit ETL pipeline in `src/script.py` and proofs
about it.  Python integers are `Int`/`Nat`, floating-point ratios that the
code computes exactly (divisions of small integers) are `Rat`, a value that
pandas turns into `NaN`/non-finite is `none` in an `Option`, and fallible
operations return `Except String`.  External effects (the praw source and
the sqlite store) are an explicit environment `Env`, and each pipeline
function also returns the list of observable events it performs.
-/

/-- Raw post record as built by `extract_posts` (script.py lines 131-147).
`selftext` is `Option String`: `none` models a record whose body field is
null/absent, which pandas keeps as `None` in the column. `created_utc` is
the creation time in epoch seconds. -/
structure RawPost where
  id : String
  title : String
  author : String
  subreddit : String
  score : Int
  upvote_ratio : Rat
  num_comments : Int
  created_utc : Nat
  selftext : Option String
  url : String
  is_video : Bool
  is_original_content : Bool
  over_18 : Bool
  stickied : Bool
  locked : Bool
deriving DecidableEq, Repr

/-- A raw record handed to `transform_data`.  `malformed` models a record
whose shape makes one of the column-wise pandas steps in
`transform_data` (script.py lines 198-217) raise — e.g. a missing key or a
non-string title; because pandas operates on whole columns, one such record
poisons the entire batch. -/
inductive RawRecord where
  | valid (p : RawPost)
  | malformed (reason : String)
deriving DecidableEq, Repr

/-- Enriched post row, one row of the transformed DataFrame
(script.py lines 192-217 plus the schema at lines 47-73).
`selftext_length` is `Option Nat`: `none` models the `NaN` that
`df['selftext'].str.len()` yields on an absent body. `engagement_rate` is
`Option Rat`: `none` models the non-finite float produced when
`score + 1 = 0`. -/
structure Post where
  id : String
  title : String
  author : String
  subreddit : String
  score : Int
  upvote_ratio : Rat
  num_comments : Int
  created_utc : Nat
  selftext : String
  url : String
  is_video : Bool
  is_original_content : Bool
  over_18 : Bool
  stickied : Bool
  locked : Bool
  title_length : Nat
  selftext_length : Option Nat
  has_selftext : Bool
  hour_posted : Nat
  day_of_week : Nat
  engagement_rate : Option Rat
  score_category : String
deriving DecidableEq, Repr

/-- Python's regex `\w` word characters restricted to ASCII-style
alphanumerics plus underscore. -/
def isWordChar (c : Char) : Bool :=
  c.isAlphanum || c = '_'

/-- Title cleaning of script.py line 216:
`df['title'].str.replace(r'[^\w\s]', '', regex=True).str.strip()` —
drop every character that is neither a word character nor whitespace,
then trim leading/trailing whitespace. -/
def cleanTitle (t : String) : String :=
  (String.mk (t.toList.filter (fun c => isWordChar c || c.isWhitespace))).trim

/-- Score bucketing of script.py lines 209-213:
`pd.cut(df['score'], bins=[-inf, 0, 10, 100, 1000, inf], labels=[...])`.
`pd.cut` uses right-closed intervals by default, so the bins are
(-inf,0], (0,10], (10,100], (100,1000], (1000,inf). -/
def scoreCategory (score : Int) : String :=
  if score ≤ 0 then "Negative"
  else if score ≤ 10 then "Low"
  else if score ≤ 100 then "Medium"
  else if score ≤ 1000 then "High"
  else "Viral"

/-- Hour of day from the creation timestamp (script.py line 203),
epoch seconds interpreted in UTC. -/
def hourPosted (t : Nat) : Nat :=
  t / 3600 % 24

/-- pandas `dt.dayofweek` (script.py line 204): Monday = 0 .. Sunday = 6.
Epoch day 0 (1970-01-01) was a Thursday, hence the +3 offset. -/
def dayOfWeek (t : Nat) : Nat :=
  (t / 86400 + 3) % 7

/-- One row of the transformation of script.py lines 198-217.  Note the
order of the source: `title_length` (line 198) uses the raw title, the
stored `title` (line 216) is the cleaned one; `selftext_length` (line 199)
is computed before `fillna('')` (line 217), so an absent body yields
`none` (pandas `NaN`) while the stored `selftext` becomes `""`. -/
def transformRow (p : RawPost) : Post :=
  { id := p.id
    title := cleanTitle p.title
    author := p.author
    subreddit := p.subreddit
    score := p.score
    upvote_ratio := RawPost.upvote_ratio p
    num_comments := p.num_comments
    created_utc := p.created_utc
    selftext := p.selftext.getD ""
    url := p.url
    is_video := p.is_video
    is_original_content := p.is_original_content
    over_18 := p.over_18
    stickied := p.stickied
    locked := p.locked
    title_length := p.title.length
    selftext_length := p.selftext.map String.length
    has_selftext :=
      match p.selftext.map String.length with
      | some n => decide (0 < n)
      | none => false
    hour_posted := hourPosted p.created_utc
    day_of_week := dayOfWeek p.created_utc
    engagement_rate :=
      if p.score + 1 = 0 then none
      else some ((p.num_comments : Rat) / ((p.score : Rat) + 1))
    score_category := scoreCategory p.score }

/-- Transforming a single raw record: a valid record yields its enriched
row, a malformed one raises (models the pandas exception). -/
def transformRowE : RawRecord → Except String Post
  | .valid p => .ok (transformRow p)
  | .malformed reason => .error reason

/-- Transforming the whole batch: the first record that raises makes the
whole batch raise (pandas steps are column-wise, so no partial rows ever
exist). -/
def mapTransform : List RawRecord → Except String (List Post)
  | [] => .ok []
  | r :: rest =>
    match transformRowE r with
    | .error e => .error e
    | .ok row =>
      match mapTransform rest with
      | .error e => .error e
      | .ok rows => .ok (row :: rows)

/-- Function `transform_data` (script.py lines 187-224): empty input returns the
empty frame (lines 194-195); otherwise all column steps run over the whole
batch — if any record makes a step raise, the `except` at lines 222-224
returns an empty DataFrame (fail-empty, no partial rows). -/
def transform_data (batch : List RawRecord) : List Post :=
  if batch.isEmpty then []
  else
    match mapTransform batch with
    | .ok rows => rows
    | .error _ => []

/-- Fields of one praw comment as read at script.py lines 169-178.
`author` is `none` for a deleted author (`str(comment.author) if
comment.author else '[deleted]'`). -/
structure CommentData where
  id : String
  author : Option String
  body : String
  score : Int
  created_utc : Nat
  parent_id : String
  is_submitter : Bool
deriving DecidableEq, Repr

/-- A node of a praw comment forest: either a real comment with its list of
replies, or a `MoreComments` placeholder ("load more" stub) hiding a
not-yet-fetched subtree. -/
inductive CNode where
  | comment (data : CommentData) (replies : List CNode)
  | more (hidden : List CNode)
deriving Repr

-- Total number of nodes of a comment node / forest (fuel bound for the
-- forest traversals below).
mutual
def sizeN : CNode → Nat
  | .comment _ rs => 1 + sizeL rs
  | .more h => 1 + sizeL h
def sizeL : List CNode → Nat
  | [] => 0
  | c :: cs => sizeN c + sizeL cs
end

/-- Children a comment contributes to praw's breadth-first `.list()` queue:
a real comment adds its replies, a `MoreComments` stub adds nothing. -/
def repliesOf : CNode → List CNode
  | .comment _ rs => rs
  | .more _ => []

/-- Call `replace_more(limit=0)` (script.py line 163): praw removes every
`MoreComments` placeholder, at every depth, WITHOUT fetching the comments
hidden behind it.  Fuel-indexed so that the function computes; the fuel
`sizeL q` is always sufficient (see `removeMore_comment` /
`removeMore_more`). -/
def removeMoreFuel : Nat → List CNode → List CNode
  | 0, _ => []
  | _ + 1, [] => []
  | n + 1, .comment d rs :: cs => .comment d (removeMoreFuel n rs) :: removeMoreFuel n cs
  | n + 1, .more _ :: cs => removeMoreFuel n cs

def removeMoreL (q : List CNode) : List CNode :=
  removeMoreFuel (sizeL q) q

/-- Modelled from the spec: "Expands any collapsed/truncated comment
subtrees fully before truncating" — the full expansion replaces each
placeholder stub in place by the comments hidden behind it (praw's
`replace_more(limit=None)`).  This definition follows the spec's words and
exists only to be compared with the code's `removeMoreL`. -/
def expandMoreFuel : Nat → List CNode → List CNode
  | 0, _ => []
  | _ + 1, [] => []
  | n + 1, .comment d rs :: cs => .comment d (expandMoreFuel n rs) :: expandMoreFuel n cs
  | n + 1, .more h :: cs => expandMoreFuel n h ++ expandMoreFuel n cs

def expandMoreL (q : List CNode) : List CNode :=
  expandMoreFuel (sizeL q) q

/-- praw `CommentForest.list()` (script.py line 167): breadth-first
flattening by a FIFO queue; popping a comment appends its replies to the
queue.  Fuel-indexed with fuel `sizeL q`, which is always sufficient
(see `listQueue_cons`). -/
def listQueueFuel : Nat → List CNode → List CNode
  | 0, _ => []
  | _ + 1, [] => []
  | n + 1, c :: rest => c :: listQueueFuel n (rest ++ repliesOf c)

def listQueue (q : List CNode) : List CNode :=
  listQueueFuel (sizeL q) q

/-- Stored comment record as assembled at script.py lines 169-178. -/
structure CommentRec where
  id : String
  post_id : String
  author : String
  body : String
  score : Int
  created_utc : Nat
  parent_id : String
  is_submitter : Bool
deriving DecidableEq, Repr

/-- Body of the loop at script.py lines 167-179: an entry is turned into a
record only if it is a real comment (`hasattr(comment, 'body')`); a
placeholder stub yields nothing.  A deleted author becomes `"[deleted]"`
(line 172). -/
def commentRecOf (pid : String) : CNode → Option CommentRec
  | .comment d _ => some
      { id := d.id, post_id := pid, author := d.author.getD "[deleted]",
        body := d.body, score := d.score, created_utc := d.created_utc,
        parent_id := d.parent_id, is_submitter := d.is_submitter }
  | .more _ => none

/-- Data path of `extract_comments` (script.py lines 159-185) applied to a
fetch outcome: on a praw failure the `except` at lines 183-185 returns `[]`;
otherwise `replace_more(limit=0)` strips the stubs (line 163), `.list()`
flattens breadth-first (line 167), `[:limit]` truncates, and the loop keeps
the entries that are comments. -/
def listCommentsCode (pid : String) (fetch : Except String (List CNode)) (limit : Nat) :
    List CommentRec :=
  match fetch with
  | .error _ => []
  | .ok forest => ((listQueue (removeMoreL forest)).take limit).filterMap (commentRecOf pid)

/-- Modelled from the spec: "Expands any collapsed/truncated comment
subtrees fully before truncating to `limit` flattest-first records" — the
same data path but with the placeholder stubs fully expanded
(`expandMoreL`) instead of removed.  Exists only to be compared with
`listCommentsCode`. -/
def listCommentsSpecFull (pid : String) (forest : List CNode) (limit : Nat) : List CommentRec :=
  ((listQueue (expandMoreL forest)).take limit).filterMap (commentRecOf pid)

-- A forest is placeholder-free when no node, at any depth, is a stub.
mutual
def allCommentsN : CNode → Bool
  | .comment _ rs => allCommentsL rs
  | .more _ => false
def allCommentsL : List CNode → Bool
  | [] => true
  | c :: cs => allCommentsN c && allCommentsL cs
end

/-- One stored posts-table row restricted to the columns the statistics
query reads (script.py lines 264-276): subreddit, the calendar date of
`created_utc` (`DATE(created_utc)` as an abstract day number), score and
num_comments. -/
structure PostRow where
  subreddit : String
  created_date : Nat
  score : Int
  num_comments : Int
deriving DecidableEq, Repr

/-- One subreddit_stats row (schema at script.py lines 92-102; composite
primary key (subreddit, date)). -/
structure StatRow where
  subreddit : String
  date : Nat
  total_posts : Nat
  avg_score : Rat
  avg_comments : Rat
  top_post_score : Int
deriving DecidableEq, Repr

/-- Does a stats row carry the composite primary key (sub, d)? -/
def statKeyIs (sub : String) (d : Nat) (r : StatRow) : Bool :=
  r.subreddit == sub && r.date == d

def maxIntList (s : Int) (l : List Int) : Int :=
  l.foldl max s

/-- The SELECT aggregate of script.py lines 266-275 over the matching
rows: `COUNT(*)`, `AVG(score)`, `AVG(num_comments)`, `MAX(score)`. -/
def computeStat (sub : String) (d : Nat) (m : List PostRow) : StatRow :=
  { subreddit := sub
    date := d
    total_posts := m.length
    avg_score := (m.map (fun p => (p.score : Rat))).sum / (m.length : Rat)
    avg_comments := (m.map (fun p => (p.num_comments : Rat))).sum / (m.length : Rat)
    top_post_score :=
      match m with
      | [] => 0
      | p :: rest => maxIntList p.score (rest.map (fun q => q.score)) }

/-- sqlite `INSERT OR REPLACE` on the (subreddit, date) primary key: the
fresh row replaces every row with the same key. -/
def upsertRow (row : StatRow) (stats : List StatRow) : List StatRow :=
  row :: stats.filter (fun r => !(statKeyIs row.subreddit row.date r))

/-- Function `generate_subreddit_stats` (script.py lines 259-286) acting on the
store: a full recompute over the posts table filtered to the subreddit and
today's date (`WHERE subreddit = ? AND DATE(created_utc) = DATE('now')`),
then `INSERT OR REPLACE` of the single aggregated row.  When no post
matches, the SELECT yields no row and nothing is written. -/
def generate_subreddit_stats (posts : List PostRow) (stats : List StatRow)
    (sub : String) (today : Nat) : List StatRow :=
  match posts.filter (fun p => p.subreddit == sub && p.created_date == today) with
  | [] => stats
  | m :: rest => upsertRow (computeStat sub today (m :: rest)) stats

/-- Observable external actions of a run: source calls, store writes and
log lines.  `beginSub` is the per-subreddit header log of `main`
(script.py line 342); the `db...` events record that the corresponding
sqlite statement was issued (whether or not it then failed). -/
inductive Event where
  | beginSub (sub : String)
  | sourceListPosts (sub : String)
  | sourceListComments (postId : String)
  | dbCreateTables
  | dbWritePosts (n : Nat)
  | dbWriteComments (n : Nat)
  | dbUpsertStats (sub : String)
  | logInfo (msg : String)
  | logWarn (msg : String)
  | logErr (msg : String)
deriving DecidableEq, Repr

/-- Outcomes of the external world during one batch run: what praw returns
per subreddit / per post, and whether each sqlite operation succeeds.
`unexpected sub` is `some e` when a genuinely unexpected exception `e` —
one raised inside `run_pipeline`'s body but not caught by any inner
handler (the inner stages catch their own errors) — interrupts that
subreddit's run. -/
structure Env where
  sourcePosts : String → Except String (List RawRecord)
  sourceComments : String → Except String (List CNode)
  writePosts : Except String Unit
  writeComments : Except String Unit
  upsertStats : String → Except String Unit
  createTables : Except String Unit
  unexpected : String → Option String

/-- Function `extract_posts` (script.py lines 112-157): on any praw failure the
`except` at lines 155-157 logs and returns the empty list; no exception
escapes. -/
def extract_posts (env : Env) (sub : String) : List Event × List RawRecord :=
  match env.sourcePosts sub with
  | .ok ps => ([.sourceListPosts sub, .logInfo "extracted posts"], ps)
  | .error e => ([.sourceListPosts sub, .logErr e], [])

/-- Function `extract_comments` (script.py lines 159-185): the praw fetch plus the
pure data path `listCommentsCode`; on failure logs and returns `[]`. -/
def extract_comments (env : Env) (pid : String) (limit : Nat) :
    List Event × List CommentRec :=
  match env.sourceComments pid with
  | .ok forest => ([.sourceListComments pid], listCommentsCode pid (.ok forest) limit)
  | .error e => ([.sourceListComments pid, .logErr e], [])

/-- Function `load_posts` (script.py lines 226-239): issues the insert and, on any
failure, logs the error and RETURNS — the `except` at lines 238-239 does
not re-raise, so a store write failure never escapes this function. -/
def load_posts (env : Env) (df : List Post) : List Event :=
  match env.writePosts with
  | .ok _ => [.logInfo "loading posts", .dbWritePosts df.length, .logInfo "loaded posts"]
  | .error e => [.logInfo "loading posts", .dbWritePosts df.length, .logErr e]

/-- Function `load_comments` (script.py lines 241-257): early return without
touching the store when there is nothing to load; otherwise insert, and on
failure log and return. -/
def load_comments (env : Env) (recs : List CommentRec) : List Event :=
  if recs.isEmpty then []
  else
    match env.writeComments with
    | .ok _ => [.dbWriteComments recs.length, .logInfo "loaded comments"]
    | .error e => [.dbWriteComments recs.length, .logErr e]

/-- Event view of `generate_subreddit_stats` (script.py lines 259-286):
issues the upsert statement; on failure logs and returns (the `except` at
lines 285-286 does not re-raise). -/
def generate_stats_events (env : Env) (sub : String) : List Event :=
  match env.upsertStats sub with
  | .ok _ => [.dbUpsertStats sub, .logInfo "stats generated"]
  | .error e => [.dbUpsertStats sub, .logErr e]

/-- Stable descending insertion on score: `p` goes after every already
placed post of score ≥ its own, matching pandas `nlargest(10, 'score')`
which keeps earlier rows first among ties. -/
def insertByScore (p : Post) : List Post → List Post
  | [] => [p]
  | q :: qs => if q.score < p.score then p :: q :: qs else q :: insertByScore p qs

/-- Selection `transformed_df.nlargest(10, 'score')['id'].tolist()`
(script.py line 312). -/
def topPosts (df : List Post) : List String :=
  ((df.foldl (fun acc p => insertByScore p acc) []).take 10).map (fun p => p.id)

/-- The comment loop of script.py lines 314-317: for each selected post,
extract up to 20 comments and load them. -/
def commentsPhase (env : Env) : List String → List Event
  | [] => []
  | pid :: rest =>
    (extract_comments env pid 20).1
      ++ load_comments env (extract_comments env pid 20).2
      ++ commentsPhase env rest

/-- Function `run_pipeline` (script.py lines 288-326).  The stages run in the fixed
order EXTRACT, TRANSFORM, LOAD, optional comments, STATS; empty extraction
and empty transformation stop the run early (lines 296-298, 303-305).  A
genuinely unexpected exception is logged and re-raised by the
`except`/`raise` at lines 324-326, which is the `.error` result. -/
def run_pipeline (env : Env) (sub : String) (extractC : Bool) :
    List Event × Except String Unit :=
  match env.unexpected sub with
  | some e => ([.logInfo "starting pipeline", .logErr e], .error e)
  | none =>
    let ext := extract_posts env sub
    if ext.2.isEmpty then
      ([.logInfo "starting pipeline"] ++ ext.1 ++ [.logWarn "no posts extracted"], .ok ())
    else
      let df := transform_data ext.2
      if df.isEmpty then
        ([.logInfo "starting pipeline"] ++ ext.1
          ++ [.logWarn "no data after transformation"], .ok ())
      else
        ([.logInfo "starting pipeline"] ++ ext.1 ++ load_posts env df
          ++ (if extractC then commentsPhase env (topPosts df) else [])
          ++ generate_stats_events env sub ++ [.logInfo "pipeline completed"], .ok ())

/-- One iteration of the batch loop of `main` (script.py lines 339-353):
log the header, run the pipeline with comments enabled, and catch any
exception it raises — log it and fall through to the next subreddit. -/
def processSubreddit (env : Env) (sub : String) : List Event :=
  match run_pipeline env sub true with
  | (t, .ok _) => .beginSub sub :: t
  | (t, .error e) => .beginSub sub :: (t ++ [.logErr ("failed " ++ sub ++ ": " ++ e)])

/-- The batch loop of `main` over the subreddit list. -/
def mainLoop (env : Env) : List String → List Event
  | [] => []
  | sub :: rest => processSubreddit env sub ++ mainLoop env rest

/-- Function `setup_database` (script.py lines 40-110): issues the CREATE TABLE
statements; on failure it logs AND RE-RAISES (line 110) — the only store
operation that lets its exception escape. -/
def setup_database (env : Env) : List Event × Except String Unit :=
  match env.createTables with
  | .ok _ => ([.dbCreateTables, .logInfo "tables created"], .ok ())
  | .error e => ([.dbCreateTables, .logErr e], .error e)

/-- Function `main` (script.py lines 328-356): the `RedditETL` constructor runs
`setup_database` (line 38); `main` has no handler around the construction,
so a schema failure propagates out of `main` (`.error`) before any
subreddit is processed.  Otherwise the batch loop runs to completion. -/
def mainRun (env : Env) (subs : List String) : Except String (List Event) :=
  match setup_database env with
  | (_, .error e) => .error e
  | (t, .ok _) => .ok (t ++ mainLoop env subs ++ [.logInfo "execution completed"])

/-- The subreddit a batch-loop header event names, if any. -/
def beginSubOf : Event → Option String
  | .beginSub s => some s
  | _ => none

/-- Subreddits whose processing the batch loop started, in order. -/
def processedSubs (t : List Event) : List String :=
  t.filterMap beginSubOf

/-- Events that issue a write statement against the store. -/
def isStoreWrite : Event → Bool
  | .dbWritePosts _ => true
  | .dbWriteComments _ => true
  | .dbUpsertStats _ => true
  | .dbCreateTables => true
  | _ => false

/-- Events that call the source for comments. -/
def isCommentFetch : Event → Bool
  | .sourceListComments _ => true
  | _ => false

/-- Sample raw post for concrete witnesses: score `s`, comment count `c`,
every other field fixed. -/
def sampleRaw (s c : Int) : RawPost :=
  { id := "p1", title := "Hello, World!! #2024", author := "alice",
    subreddit := "s", score := s, upvote_ratio := 1, num_comments := c,
    created_utc := 0, selftext := some "body", url := "u", is_video := false,
    is_original_content := false, over_18 := false, stickied := false,
    locked := false }

/-- Sample raw post whose body is absent. -/
def noBodyPost : RawPost :=
  { sampleRaw 7 2 with selftext := none }

/-- Sample stored post row for the statistics witnesses. -/
def demoPostRow (s c : Int) : PostRow :=
  { subreddit := "x", created_date := 0, score := s, num_comments := c }

/-- Three stored posts of scores 5, 15, 1000 on the same date. -/
def demoPosts3 : List PostRow :=
  [demoPostRow 5 2, demoPostRow 15 4, demoPostRow 1000 6]

/-- The same store after a fourth post arrives. -/
def demoPosts4 : List PostRow :=
  demoPosts3 ++ [demoPostRow 100 8]

/-- A comment hidden behind a "load more" placeholder stub. -/
def demoHidden : CommentData :=
  { id := "c1", author := some "bob", body := "hidden reply", score := 1,
    created_utc := 0, parent_id := "t3_p9", is_submitter := false }

/-- A comment forest consisting of one placeholder stub hiding one
comment. -/
def demoForest : List CNode :=
  [.more [.comment demoHidden []]]

/-- Environment for the load-failure scenario: extraction succeeds with one
post, the posts insert fails with a primary-key violation, everything else
succeeds. -/
def envLoadFail : Env :=
  { sourcePosts := fun _ => .ok [.valid (sampleRaw 5 2)]
    sourceComments := fun _ => .ok []
    writePosts := .error "UNIQUE constraint failed"
    writeComments := .ok ()
    upsertStats := fun _ => .ok ()
    createTables := .ok ()
    unexpected := fun _ => none }

/-- Environment where subreddit "b" hits an unexpected exception and every
external operation succeeds. -/
def envBoom : Env :=
  { envLoadFail with
    writePosts := .ok ()
    unexpected := fun sub => if sub = "b" then some "boom" else none }

/-- Environment whose post extraction returns no posts. -/
def envEmpty : Env :=
  { envLoadFail with sourcePosts := fun _ => .ok [], writePosts := .ok () }

/-- Environment whose schema creation fails. -/
def envNoSchema : Env :=
  { envLoadFail with writePosts := .ok (), createTables := .error "disk full" }


theorem sizeN_pos (c : CNode) : 1 ≤ sizeN c := by
  cases c <;> simp [sizeN] <;> omega

theorem sizeL_append (a b : List CNode) : sizeL (a ++ b) = sizeL a + sizeL b := by
  induction a with
  | nil => simp [sizeL]
  | cons c cs ih => simp [sizeL, ih]; omega

theorem sizeL_repliesOf_lt (c : CNode) : sizeL (repliesOf c) < sizeN c := by
  cases c <;> simp [repliesOf, sizeN, sizeL]

theorem removeMoreFuel_congr :
    ∀ n m q, sizeL q ≤ n → sizeL q ≤ m → removeMoreFuel n q = removeMoreFuel m q := by
  intro n
  induction n with
  | zero =>
    intro m q hn _
    cases q with
    | nil => cases m <;> rfl
    | cons c rest =>
      exfalso
      have := sizeN_pos c
      simp [sizeL] at hn
      omega
  | succ n ih =>
    intro m q hn hm
    cases q with
    | nil => cases m <;> rfl
    | cons c rest =>
      cases m with
      | zero =>
        exfalso
        have := sizeN_pos c
        simp [sizeL] at hm
        omega
      | succ m =>
        cases c with
        | comment d rs =>
          simp only [removeMoreFuel]
          simp [sizeL, sizeN] at hn hm
          rw [ih m rs (by omega) (by omega), ih m rest (by omega) (by omega)]
        | more h =>
          simp only [removeMoreFuel]
          simp [sizeL, sizeN] at hn hm
          exact ih m rest (by omega) (by omega)

theorem removeMore_nil : removeMoreL [] = [] := rfl

theorem removeMore_comment (d : CommentData) (rs cs : List CNode) :
    removeMoreL (.comment d rs :: cs) = .comment d (removeMoreL rs) :: removeMoreL cs := by
  show removeMoreFuel (sizeL (.comment d rs :: cs)) _ = _
  cases hs : sizeL (.comment d rs :: cs) with
  | zero => exfalso; simp [sizeL, sizeN] at hs
  | succ k =>
    simp only [removeMoreFuel]
    simp [sizeL, sizeN] at hs
    rw [removeMoreFuel_congr k (sizeL rs) rs (by omega) (by omega),
      removeMoreFuel_congr k (sizeL cs) cs (by omega) (by omega)]
    rfl

theorem removeMore_more (h cs : List CNode) :
    removeMoreL (.more h :: cs) = removeMoreL cs := by
  show removeMoreFuel (sizeL (.more h :: cs)) _ = _
  cases hs : sizeL (.more h :: cs) with
  | zero => exfalso; simp [sizeL, sizeN] at hs
  | succ k =>
    simp only [removeMoreFuel]
    simp [sizeL, sizeN] at hs
    exact removeMoreFuel_congr k (sizeL cs) cs (by omega) (by omega)

theorem listQueueFuel_congr :
    ∀ n m q, sizeL q ≤ n → sizeL q ≤ m → listQueueFuel n q = listQueueFuel m q := by
  intro n
  induction n with
  | zero =>
    intro m q hn _
    cases q with
    | nil => cases m <;> rfl
    | cons c rest =>
      exfalso
      have := sizeN_pos c
      simp [sizeL] at hn
      omega
  | succ n ih =>
    intro m q hn hm
    cases q with
    | nil => cases m <;> rfl
    | cons c rest =>
      cases m with
      | zero =>
        exfalso
        have := sizeN_pos c
        simp [sizeL] at hm
        omega
      | succ m =>
        simp only [listQueueFuel]
        congr 1
        apply ih
        · have h1 := sizeN_pos c
          have h2 := sizeL_repliesOf_lt c
          simp [sizeL, sizeL_append] at hn ⊢
          omega
        · have h1 := sizeN_pos c
          have h2 := sizeL_repliesOf_lt c
          simp [sizeL, sizeL_append] at hm ⊢
          omega

theorem listQueue_nil : listQueue [] = [] := rfl

theorem listQueue_cons (c : CNode) (rest : List CNode) :
    listQueue (c :: rest) = c :: listQueue (rest ++ repliesOf c) := by
  have h1 : 1 ≤ sizeN c := sizeN_pos c
  have h2 : sizeL (repliesOf c) < sizeN c := sizeL_repliesOf_lt c
  cases hs : sizeL (c :: rest) with
  | zero => exfalso; simp [sizeL] at hs; omega
  | succ k =>
    show listQueueFuel (sizeL (c :: rest)) (c :: rest) = _
    rw [hs]
    simp only [listQueueFuel]
    congr 1
    apply listQueueFuel_congr
    · simp [sizeL, sizeL_append] at hs ⊢
      omega
    · omega

theorem allCommentsL_append (a b : List CNode) :
    allCommentsL (a ++ b) = (allCommentsL a && allCommentsL b) := by
  induction a with
  | nil => simp [allCommentsL]
  | cons c cs ih => simp [allCommentsL, ih, Bool.and_assoc]

/-- Stripping the stubs leaves a placeholder-free forest. -/
theorem allComments_removeMoreFuel : ∀ n q, allCommentsL (removeMoreFuel n q) = true := by
  intro n
  induction n with
  | zero => intro q; rfl
  | succ n ih =>
    intro q
    match q with
    | [] => rfl
    | .comment d rs :: cs =>
      simp only [removeMoreFuel, allCommentsL, allCommentsN]
      simp [ih rs, ih cs]
    | .more h :: cs =>
      simp only [removeMoreFuel]
      exact ih cs

theorem allComments_removeMore (q : List CNode) : allCommentsL (removeMoreL q) = true :=
  allComments_removeMoreFuel (sizeL q) q

/-- Every node the breadth-first flattening of a placeholder-free forest
produces is a comment, so `commentRecOf` succeeds on it. -/
theorem commentRecOf_isSome_of_mem_fuel (pid : String) :
    ∀ n q, allCommentsL q = true →
      ∀ x ∈ listQueueFuel n q, (commentRecOf pid x).isSome = true := by
  intro n
  induction n with
  | zero => intro q _ x hx; simp [listQueueFuel] at hx
  | succ n ih =>
    intro q hq x hx
    match q with
    | [] => simp [listQueueFuel] at hx
    | c :: rest =>
      simp only [listQueueFuel, List.mem_cons] at hx
      simp only [allCommentsL, Bool.and_eq_true] at hq
      rcases hx with rfl | hx
      · cases x with
        | comment d rs => simp [commentRecOf]
        | more h => simp [allCommentsN] at hq
      · apply ih (rest ++ repliesOf c) _ x hx
        rw [allCommentsL_append, hq.2]
        cases c with
        | comment d rs => simpa [repliesOf, allCommentsN] using hq.1
        | more h => simp [allCommentsN] at hq

/-- Truncating then keeping the `some`s equals keeping the `some`s then
truncating, when every element maps to `some`. -/
theorem filterMap_take_of_isSome {α β : Type} (f : α → Option β) :
    ∀ (l : List α) (n : Nat), (∀ x ∈ l, (f x).isSome = true) →
      (l.take n).filterMap f = (l.filterMap f).take n := by
  intro l
  induction l with
  | nil => intro n _; simp
  | cons x xs ih =>
    intro n h
    cases n with
    | zero => simp
    | succ n =>
      have hx : (f x).isSome = true := h x (List.mem_cons_self x xs)
      obtain ⟨b, hb⟩ := Option.isSome_iff_exists.mp hx
      simp only [List.take_succ_cons, List.filterMap_cons, hb, List.take_cons]
      rw [ih n (fun y hy => h y (List.mem_cons_of_mem x hy))]

/-- Claim C2: for every post record with integer score s and integer
comment count c (such that s + 1 ≠ 0, so the quotient exists — at s = -1
the float in the code is non-finite), the Feature Transformer computes
engagement_rate exactly equal to c / (s + 1), negative scores included,
with no clamping or adjustment. -/
theorem engagement_rate_exact (p : RawPost) (h : p.score + 1 ≠ 0) :
    (transformRow p).engagement_rate =
      some ((p.num_comments : Rat) / ((p.score : Rat) + 1)) := by
  simp [transformRow, h]

/-- Witness for C2 at score -5, comment count 3: the rate is exactly
3 / (-4) = -0.75, strictly negative (not clamped). -/
theorem engagement_rate_exact_witness :
    (sampleRaw (-5) 3).score + 1 ≠ 0 ∧
    (transformRow (sampleRaw (-5) 3)).engagement_rate =
      some (((sampleRaw (-5) 3).num_comments : Rat) /
        (((sampleRaw (-5) 3).score : Rat) + 1)) ∧
    (transformRow (sampleRaw (-5) 3)).engagement_rate = some ((-3 : Rat) / 4) :=
  ⟨by decide, engagement_rate_exact (sampleRaw (-5) 3) (by decide),
   by norm_num [transformRow, sampleRaw]⟩

/-- Claim C3: score_category is assigned by right-closed bins:
(-inf,0] Negative, (0,10] Low, (10,100] Medium, (100,1000] High,
(1000,inf) Viral. -/
theorem score_category_bins (p : RawPost) :
    (p.score ≤ 0 → (transformRow p).score_category = "Negative") ∧
    (0 < p.score → p.score ≤ 10 → (transformRow p).score_category = "Low") ∧
    (10 < p.score → p.score ≤ 100 → (transformRow p).score_category = "Medium") ∧
    (100 < p.score → p.score ≤ 1000 → (transformRow p).score_category = "High") ∧
    (1000 < p.score → (transformRow p).score_category = "Viral") := by
  have e : (transformRow p).score_category = scoreCategory p.score := rfl
  rw [e]
  unfold scoreCategory
  refine ⟨fun h => ?_, fun h1 h2 => ?_, fun h1 h2 => ?_, fun h1 h2 => ?_, fun h => ?_⟩ <;>
    split_ifs <;> first | rfl | omega

/-- Witness for C3 at the boundary scores 0, 10, 11, 100, 101, 1000,
1001. -/
theorem score_category_bins_witness :
    (transformRow (sampleRaw 0 0)).score_category = "Negative" ∧
    (transformRow (sampleRaw 10 0)).score_category = "Low" ∧
    (transformRow (sampleRaw 11 0)).score_category = "Medium" ∧
    (transformRow (sampleRaw 100 0)).score_category = "Medium" ∧
    (transformRow (sampleRaw 101 0)).score_category = "High" ∧
    (transformRow (sampleRaw 1000 0)).score_category = "High" ∧
    (transformRow (sampleRaw 1001 0)).score_category = "Viral" :=
  ⟨(score_category_bins (sampleRaw 0 0)).1 (by decide),
   (score_category_bins (sampleRaw 10 0)).2.1 (by decide) (by decide),
   (score_category_bins (sampleRaw 11 0)).2.2.1 (by decide) (by decide),
   (score_category_bins (sampleRaw 100 0)).2.2.1 (by decide) (by decide),
   (score_category_bins (sampleRaw 101 0)).2.2.2.1 (by decide) (by decide),
   (score_category_bins (sampleRaw 1000 0)).2.2.2.1 (by decide) (by decide),
   (score_category_bins (sampleRaw 1001 0)).2.2.2.2 (by decide)⟩

/-- An all-valid batch transforms to exactly its rows. -/
theorem mapTransform_all_valid (rs : List RawPost) :
    mapTransform (rs.map RawRecord.valid) = .ok (rs.map transformRow) := by
  induction rs with
  | nil => rfl
  | cons p ps ih => simp [mapTransform, transformRowE, ih]

/-- A batch containing a malformed record makes the whole transformation
raise. -/
theorem mapTransform_malformed (batch : List RawRecord) (reason : String)
    (h : RawRecord.malformed reason ∈ batch) :
    ∃ e, mapTransform batch = .error e := by
  induction batch with
  | nil => cases h
  | cons r rest ih =>
    rcases List.mem_cons.mp h with rfl | hmem
    · exact ⟨reason, rfl⟩
    · cases r with
      | malformed e => exact ⟨e, rfl⟩
      | valid p =>
        obtain ⟨e, he⟩ := ih hmem
        exact ⟨e, by simp [mapTransform, transformRowE, he]⟩

/-- Claim C4: a valid non-empty batch transforms to exactly as many rows as
the input has, and a batch on which any step fails transforms to the empty
dataset, with no partial rows. -/
theorem transform_row_count :
    (∀ rs : List RawPost, rs ≠ [] →
      (transform_data (rs.map RawRecord.valid)).length =
        (rs.map RawRecord.valid).length) ∧
    (∀ (batch : List RawRecord) (reason : String),
      RawRecord.malformed reason ∈ batch → transform_data batch = []) := by
  constructor
  · intro rs hne
    unfold transform_data
    rw [mapTransform_all_valid rs]
    simp [List.isEmpty_iff, hne]
  · intro batch reason hmem
    obtain ⟨e, he⟩ := mapTransform_malformed batch reason hmem
    unfold transform_data
    rw [he]
    simp

/-- Witness for C4: a two-post valid batch keeps its two rows; a batch
with a malformed record yields the empty dataset. -/
theorem transform_row_count_witness :
    ([sampleRaw 1 0, sampleRaw 2 0] ≠ []) ∧
    (transform_data ([sampleRaw 1 0, sampleRaw 2 0].map RawRecord.valid)).length =
      ([sampleRaw 1 0, sampleRaw 2 0].map RawRecord.valid).length ∧
    RawRecord.malformed "bad shape" ∈
      [RawRecord.valid (sampleRaw 1 0), RawRecord.malformed "bad shape"] ∧
    transform_data [RawRecord.valid (sampleRaw 1 0), RawRecord.malformed "bad shape"] = [] :=
  ⟨by decide,
   transform_row_count.1 [sampleRaw 1 0, sampleRaw 2 0] (by decide),
   by decide,
   transform_row_count.2 [RawRecord.valid (sampleRaw 1 0), RawRecord.malformed "bad shape"]
     "bad shape" (by decide)⟩

/-- Counterexample to claim C7: on a record with an absent body the code
computes `df['selftext'].str.len()` BEFORE `fillna('')` (script.py lines
199 and 217), so selftext_length is NaN/null, not 0 as claimed. -/
theorem absent_selftext_counterexample :
    noBodyPost.selftext = none ∧
    (transformRow noBodyPost).selftext_length ≠ some 0 ∧
    (transformRow noBodyPost).selftext_length = none := by
  refine ⟨rfl, ?_, rfl⟩
  decide

/-- Claim C7 (amended): for every raw post record with an absent body,
selftext_length is null (pandas NaN, not 0), has_selftext is false, and
the stored body field is the empty string; title_length is the character
length of the (raw) title. -/
theorem transform_absent_selftext (p : RawPost) :
    (p.selftext = none →
      (transformRow p).selftext_length = none ∧
      (transformRow p).has_selftext = false ∧
      (transformRow p).selftext = "") ∧
    (transformRow p).title_length = p.title.length := by
  constructor
  · intro h
    refine ⟨?_, ?_, ?_⟩ <;> simp [transformRow, h]
  · rfl

/-- Witness for C7 (amended) at the sample record without a body. -/
theorem transform_absent_selftext_witness :
    noBodyPost.selftext = none ∧
    ((transformRow noBodyPost).selftext_length = none ∧
     (transformRow noBodyPost).has_selftext = false ∧
     (transformRow noBodyPost).selftext = "") ∧
    (transformRow noBodyPost).title_length = noBodyPost.title.length :=
  ⟨rfl, (transform_absent_selftext noBodyPost).1 rfl,
   (transform_absent_selftext noBodyPost).2⟩

/-- The freshly computed aggregate row carries the (sub, today) key. -/
theorem statKeyIs_computeStat (sub : String) (today : Nat) (l : List PostRow) :
    statKeyIs sub today (computeStat sub today l) = true := by
  simp [statKeyIs, computeStat]

/-- Claim C5: the rollup fully recomputes the aggregate over the stored
posts for (subreddit, today) and replaces any existing row with that
composite key: afterwards exactly one row — the freshly computed one —
carries the key, and every row with a different key is untouched.  In
particular re-running the rollup updates the row in place instead of
inserting a second one. -/
theorem generate_subreddit_stats_upsert (posts : List PostRow) (stats : List StatRow)
    (sub : String) (today : Nat)
    (h : posts.filter (fun p => p.subreddit == sub && p.created_date == today) ≠ []) :
    (generate_subreddit_stats posts stats sub today).filter (statKeyIs sub today) =
      [computeStat sub today
        (posts.filter (fun p => p.subreddit == sub && p.created_date == today))] ∧
    (generate_subreddit_stats posts stats sub today).filter
        (fun r => !(statKeyIs sub today r)) =
      stats.filter (fun r => !(statKeyIs sub today r)) := by
  cases hm : posts.filter (fun p => p.subreddit == sub && p.created_date == today) with
  | nil => exact absurd hm h
  | cons m rest =>
    have hgen : generate_subreddit_stats posts stats sub today =
        upsertRow (computeStat sub today (m :: rest)) stats := by
      unfold generate_subreddit_stats
      rw [hm]
    rw [hgen]
    unfold upsertRow
    have h1 : (computeStat sub today (m :: rest)).subreddit = sub := rfl
    have h2 : (computeStat sub today (m :: rest)).date = today := rfl
    rw [h1, h2]
    have hkey := statKeyIs_computeStat sub today (m :: rest)
    constructor
    · rw [List.filter_cons]
      simp only [hkey, if_true]
      rw [List.filter_filter]
      simp
    · rw [List.filter_cons]
      simp only [hkey, Bool.not_true, if_false]
      rw [List.filter_filter]
      simp

/-- Witness for C5: three stored posts of scores 5, 15, 1000 (comment
counts 2, 4, 6) on today's date yield total_posts=3, avg_score=340,
avg_comments=4, top_post_score=1000; re-running after a fourth post
(score 100, comments 8) updates the same single row in place — one row,
new aggregates — instead of inserting a second row. -/
theorem generate_subreddit_stats_witness :
    demoPosts3.filter (fun p => p.subreddit == "x" && p.created_date == 0) ≠ [] ∧
    (generate_subreddit_stats demoPosts3 [] "x" 0).filter (statKeyIs "x" 0) =
      [computeStat "x" 0
        (demoPosts3.filter (fun p => p.subreddit == "x" && p.created_date == 0))] ∧
    generate_subreddit_stats demoPosts3 [] "x" 0 =
      [{ subreddit := "x", date := 0, total_posts := 3, avg_score := 340,
         avg_comments := 4, top_post_score := 1000 }] ∧
    generate_subreddit_stats demoPosts4
        (generate_subreddit_stats demoPosts3 [] "x" 0) "x" 0 =
      [{ subreddit := "x", date := 0, total_posts := 4, avg_score := 280,
         avg_comments := 5, top_post_score := 1000 }] := by
  refine ⟨by decide,
    (generate_subreddit_stats_upsert demoPosts3 [] "x" 0 (by decide)).1, ?_, ?_⟩
  · norm_num [generate_subreddit_stats, demoPosts3, demoPostRow, computeStat,
      upsertRow, statKeyIs, maxIntList]
  · norm_num [generate_subreddit_stats, demoPosts3, demoPosts4, demoPostRow,
      computeStat, upsertRow, statKeyIs, maxIntList]

theorem processedSubs_nil : processedSubs [] = [] := rfl

theorem processedSubs_append (a b : List Event) :
    processedSubs (a ++ b) = processedSubs a ++ processedSubs b := by
  unfold processedSubs
  exact List.filterMap_append a b beginSubOf

theorem processedSubs_cons_of_none (ev : Event) (t : List Event)
    (h : beginSubOf ev = none) :
    processedSubs (ev :: t) = processedSubs t := by
  unfold processedSubs
  rw [List.filterMap_cons, h]

theorem processedSubs_extract_posts (env : Env) (sub : String) :
    processedSubs (extract_posts env sub).1 = [] := by
  unfold extract_posts
  cases env.sourcePosts sub <;> rfl

theorem processedSubs_extract_comments (env : Env) (pid : String) (limit : Nat) :
    processedSubs (extract_comments env pid limit).1 = [] := by
  unfold extract_comments
  cases env.sourceComments pid <;> rfl

theorem processedSubs_load_posts (env : Env) (df : List Post) :
    processedSubs (load_posts env df) = [] := by
  unfold load_posts
  cases env.writePosts <;> rfl

theorem processedSubs_load_comments (env : Env) (recs : List CommentRec) :
    processedSubs (load_comments env recs) = [] := by
  unfold load_comments
  split
  · rfl
  · cases env.writeComments <;> rfl

theorem processedSubs_stats (env : Env) (sub : String) :
    processedSubs (generate_stats_events env sub) = [] := by
  unfold generate_stats_events
  cases env.upsertStats sub <;> rfl

theorem processedSubs_commentsPhase (env : Env) (pids : List String) :
    processedSubs (commentsPhase env pids) = [] := by
  induction pids with
  | nil => rfl
  | cons pid rest ih =>
    show processedSubs ((extract_comments env pid 20).1
      ++ load_comments env (extract_comments env pid 20).2
      ++ commentsPhase env rest) = []
    rw [processedSubs_append, processedSubs_append,
      processedSubs_extract_comments, processedSubs_load_comments, ih]
    rfl

/-- A single subreddit's pipeline run never emits a batch-loop header. -/
theorem processedSubs_run_pipeline (env : Env) (sub : String) (c : Bool) :
    processedSubs (run_pipeline env sub c).1 = [] := by
  unfold run_pipeline
  cases env.unexpected sub with
  | some e => rfl
  | none =>
    dsimp only
    split
    · show processedSubs ([Event.logInfo "starting pipeline"]
        ++ (extract_posts env sub).1 ++ [Event.logWarn "no posts extracted"]) = []
      rw [processedSubs_append, processedSubs_append, processedSubs_extract_posts]
      rfl
    · split
      · show processedSubs ([Event.logInfo "starting pipeline"]
          ++ (extract_posts env sub).1
          ++ [Event.logWarn "no data after transformation"]) = []
        rw [processedSubs_append, processedSubs_append, processedSubs_extract_posts]
        rfl
      · show processedSubs ([Event.logInfo "starting pipeline"]
          ++ (extract_posts env sub).1
          ++ load_posts env (transform_data (extract_posts env sub).2)
          ++ (if c then commentsPhase env
              (topPosts (transform_data (extract_posts env sub).2)) else [])
          ++ generate_stats_events env sub ++ [Event.logInfo "pipeline completed"]) = []
        have hc : processedSubs (if c then
            commentsPhase env (topPosts (transform_data (extract_posts env sub).2))
            else []) = [] := by
          split
          · exact processedSubs_commentsPhase env _
          · rfl
        rw [processedSubs_append, processedSubs_append, processedSubs_append,
          processedSubs_append, processedSubs_append,
          processedSubs_extract_posts, processedSubs_load_posts,
          processedSubs_stats, hc]
        rfl

/-- One batch-loop iteration starts exactly its own subreddit. -/
theorem processedSubs_processSubreddit (env : Env) (sub : String) :
    processedSubs (processSubreddit env sub) = [sub] := by
  unfold processSubreddit
  have hp := processedSubs_run_pipeline env sub true
  cases hr : run_pipeline env sub true with
  | mk t r =>
    rw [hr] at hp
    cases r with
    | ok u =>
      show processedSubs (.beginSub sub :: t) = [sub]
      unfold processedSubs
      rw [List.filterMap_cons]
      simp only [beginSubOf]
      rw [show List.filterMap beginSubOf t = processedSubs t from rfl, hp]
    | error e =>
      show processedSubs (.beginSub sub ::
        (t ++ [.logErr ("failed " ++ sub ++ ": " ++ e)])) = [sub]
      unfold processedSubs
      rw [List.filterMap_cons]
      simp only [beginSubOf]
      rw [List.filterMap_append]
      rw [show List.filterMap beginSubOf t = processedSubs t from rfl, hp]
      rfl

theorem mainLoop_append (env : Env) (a b : List String) :
    mainLoop env (a ++ b) = mainLoop env a ++ mainLoop env b := by
  induction a with
  | nil => rfl
  | cons sub rest ih =>
    show processSubreddit env sub ++ mainLoop env (rest ++ b)
      = (processSubreddit env sub ++ mainLoop env rest) ++ mainLoop env b
    rw [ih, List.append_assoc]

theorem processedSubs_mainLoop (env : Env) (subs : List String) :
    processedSubs (mainLoop env subs) = subs := by
  induction subs with
  | nil => rfl
  | cons sub rest ih =>
    show processedSubs (processSubreddit env sub ++ mainLoop env rest) = sub :: rest
    rw [processedSubs_append, processedSubs_processSubreddit, ih]
    rfl

/-- Claim C1: the batch entry point iterates the full subreddit list no
matter what each run does — an unexpected error in one subreddit's run is
caught by the loop's handler, logged, and the loop continues with each
subsequent subreddit; every subreddit in the list gets its run started. -/
theorem mainLoop_failure_isolation (env : Env) (pre post : List String) (sub : String) :
    mainLoop env (pre ++ sub :: post) =
      mainLoop env pre ++ processSubreddit env sub ++ mainLoop env post ∧
    processedSubs (mainLoop env (pre ++ sub :: post)) = pre ++ sub :: post ∧
    (∀ t e, run_pipeline env sub true = (t, .error e) →
      processSubreddit env sub =
        .beginSub sub :: (t ++ [.logErr ("failed " ++ sub ++ ": " ++ e)])) := by
  refine ⟨?_, processedSubs_mainLoop env (pre ++ sub :: post), ?_⟩
  · rw [mainLoop_append]
    show mainLoop env pre ++ (processSubreddit env sub ++ mainLoop env post) = _
    rw [List.append_assoc]
  · intro t e h
    unfold processSubreddit
    rw [h]

/-- Witness for C1: with an environment where subreddit "b" raises an
unexpected error, the batch over ["a", "b", "c"] still starts all three
runs, and the failure of "b" is logged by the loop's handler. -/
theorem mainLoop_failure_isolation_witness :
    run_pipeline envBoom "b" true =
      ([.logInfo "starting pipeline", .logErr "boom"], .error "boom") ∧
    processSubreddit envBoom "b" =
      .beginSub "b" :: ([.logInfo "starting pipeline", .logErr "boom"]
        ++ [.logErr ("failed " ++ "b" ++ ": " ++ "boom")]) ∧
    mainLoop envBoom (["a"] ++ "b" :: ["c"]) =
      mainLoop envBoom ["a"] ++ processSubreddit envBoom "b" ++ mainLoop envBoom ["c"] ∧
    processedSubs (mainLoop envBoom (["a"] ++ "b" :: ["c"])) = ["a"] ++ "b" :: ["c"] :=
  ⟨rfl,
   (mainLoop_failure_isolation envBoom ["a"] ["c"] "b").2.2
     [.logInfo "starting pipeline", .logErr "boom"] "boom" rfl,
   (mainLoop_failure_isolation envBoom ["a"] ["c"] "b").1,
   (mainLoop_failure_isolation envBoom ["a"] ["c"] "b").2.1⟩

theorem filter_extract_posts_storeWrite (env : Env) (sub : String) :
    (extract_posts env sub).1.filter isStoreWrite = [] := by
  unfold extract_posts
  cases env.sourcePosts sub <;> rfl

theorem filter_extract_posts_commentFetch (env : Env) (sub : String) :
    (extract_posts env sub).1.filter isCommentFetch = [] := by
  unfold extract_posts
  cases env.sourcePosts sub <;> rfl

/-- Claim C9: when post extraction returns the empty sequence (and no
unexpected error interrupts the run), the subreddit's pipeline run
terminates normally — it issues no store write statement and no comment
fetch; the batch loop then proceeds to the next subreddit
(`mainLoop_failure_isolation`). -/
theorem empty_extraction_no_writes (env : Env) (sub : String)
    (hu : env.unexpected sub = none)
    (he : (extract_posts env sub).2 = []) :
    (run_pipeline env sub true).2 = .ok () ∧
    (run_pipeline env sub true).1.filter isStoreWrite = [] ∧
    (run_pipeline env sub true).1.filter isCommentFetch = [] := by
  have hemp : (extract_posts env sub).2.isEmpty = true := by
    rw [he]
    rfl
  have hrun : run_pipeline env sub true =
      ([.logInfo "starting pipeline"] ++ (extract_posts env sub).1
        ++ [.logWarn "no posts extracted"], .ok ()) := by
    unfold run_pipeline
    rw [hu]
    dsimp only
    rw [if_pos hemp]
  rw [hrun]
  refine ⟨rfl, ?_, ?_⟩
  · show ([Event.logInfo "starting pipeline"] ++ (extract_posts env sub).1
      ++ [Event.logWarn "no posts extracted"]).filter isStoreWrite = []
    rw [List.filter_append, List.filter_append, filter_extract_posts_storeWrite]
    rfl
  · show ([Event.logInfo "starting pipeline"] ++ (extract_posts env sub).1
      ++ [Event.logWarn "no posts extracted"]).filter isCommentFetch = []
    rw [List.filter_append, List.filter_append, filter_extract_posts_commentFetch]
    rfl

/-- Witness for C9 in an environment whose extraction yields no posts. -/
theorem empty_extraction_no_writes_witness :
    envEmpty.unexpected "s" = none ∧
    (extract_posts envEmpty "s").2 = [] ∧
    (run_pipeline envEmpty "s" true).2 = .ok () ∧
    (run_pipeline envEmpty "s" true).1.filter isStoreWrite = [] ∧
    (run_pipeline envEmpty "s" true).1.filter isCommentFetch = [] := by
  have h := empty_extraction_no_writes envEmpty "s" rfl rfl
  exact ⟨rfl, rfl, h.1, h.2.1, h.2.2⟩

/-- Claim C10: schema initialization is the one store operation that
re-raises: a failing CREATE TABLE propagates out of `setup_database` and
the constructor, aborting the whole process before any subreddit is
processed (the `.error` result of `mainRun` carries no processed
subreddit), while source failures, transformation failures, load failures
and statistics failures are all caught inside their own stage, so the
per-subreddit run still returns normally. -/
theorem setup_database_reraise :
    (∀ (env : Env) (subs : List String) (e : String),
      env.createTables = .error e → mainRun env subs = .error e) ∧
    (∀ (env : Env) (sub : String),
      env.unexpected sub = none → (run_pipeline env sub true).2 = .ok ()) := by
  constructor
  · intro env subs e he
    unfold mainRun setup_database
    rw [he]
  · intro env sub hu
    unfold run_pipeline
    rw [hu]
    dsimp only
    split
    · rfl
    · split
      · rfl
      · rfl

/-- Witness for C10: a failing schema creation aborts the whole batch,
while an environment whose posts insert fails still completes its run
normally. -/
theorem setup_database_reraise_witness :
    envNoSchema.createTables = .error "disk full" ∧
    mainRun envNoSchema ["python"] = .error "disk full" ∧
    envLoadFail.unexpected "s" = none ∧
    (run_pipeline envLoadFail "s" true).2 = .ok () :=
  ⟨rfl, setup_database_reraise.1 envNoSchema ["python"] "disk full" rfl,
   rfl, setup_database_reraise.2 envLoadFail "s" rfl⟩

/-- Claim C6 (amended): within one subreddit's run the stages execute in
the fixed order EXTRACT, TRANSFORM, LOAD, comment extraction, STATS, and
empty extraction or empty transformation stops the run; but a failure of
the LOAD stage does NOT abort the remainder — `load_posts` catches its own
exception (script.py lines 238-239), logs it and returns, so comment
extraction and the statistics rollup still execute after a failed load. -/
theorem run_pipeline_stage_order (env : Env) (sub e : String)
    (hu : env.unexpected sub = none)
    (hne : (extract_posts env sub).2.isEmpty = false)
    (hdf : (transform_data (extract_posts env sub).2).isEmpty = false)
    (hw : env.writePosts = .error e) :
    run_pipeline env sub true =
      ([.logInfo "starting pipeline"] ++ (extract_posts env sub).1
        ++ load_posts env (transform_data (extract_posts env sub).2)
        ++ commentsPhase env (topPosts (transform_data (extract_posts env sub).2))
        ++ generate_stats_events env sub ++ [.logInfo "pipeline completed"], .ok ()) ∧
    Event.logErr e ∈ load_posts env (transform_data (extract_posts env sub).2) ∧
    Event.dbUpsertStats sub ∈ generate_stats_events env sub := by
  refine ⟨?_, ?_, ?_⟩
  · unfold run_pipeline
    rw [hu]
    dsimp only
    rw [hne, hdf]
    simp
  · unfold load_posts
    rw [hw]
    simp
  · unfold generate_stats_events
    cases env.upsertStats sub <;> simp

/-- Counterexample to claim C6: in an environment whose posts insert fails
with a primary-key violation, the run still fetches comments and still
runs the statistics rollup afterwards, and the run returns normally — the
load failure does not abort the remainder of the subreddit's run. -/
theorem load_failure_counterexample :
    envLoadFail.writePosts = .error "UNIQUE constraint failed" ∧
    Event.logErr "UNIQUE constraint failed" ∈ (run_pipeline envLoadFail "s" true).1 ∧
    Event.sourceListComments "p1" ∈ (run_pipeline envLoadFail "s" true).1 ∧
    Event.dbUpsertStats "s" ∈ (run_pipeline envLoadFail "s" true).1 ∧
    (run_pipeline envLoadFail "s" true).2 = .ok () := by
  refine ⟨rfl, ?_, ?_, ?_, rfl⟩ <;> decide

/-- Witness for C6 (amended) in the same failing-load environment. -/
theorem run_pipeline_stage_order_witness :
    envLoadFail.unexpected "s" = none ∧
    (extract_posts envLoadFail "s").2.isEmpty = false ∧
    (transform_data (extract_posts envLoadFail "s").2).isEmpty = false ∧
    envLoadFail.writePosts = .error "UNIQUE constraint failed" ∧
    run_pipeline envLoadFail "s" true =
      ([.logInfo "starting pipeline"] ++ (extract_posts envLoadFail "s").1
        ++ load_posts envLoadFail (transform_data (extract_posts envLoadFail "s").2)
        ++ commentsPhase envLoadFail
            (topPosts (transform_data (extract_posts envLoadFail "s").2))
        ++ generate_stats_events envLoadFail "s"
        ++ [.logInfo "pipeline completed"], .ok ()) ∧
    Event.logErr "UNIQUE constraint failed" ∈
      load_posts envLoadFail (transform_data (extract_posts envLoadFail "s").2) ∧
    Event.dbUpsertStats "s" ∈ generate_stats_events envLoadFail "s" := by
  have h := run_pipeline_stage_order envLoadFail "s" "UNIQUE constraint failed"
    rfl rfl rfl rfl
  exact ⟨rfl, rfl, rfl, rfl, h.1, h.2.1, h.2.2⟩

/-- Claim C8 (amended): `extract_comments` does NOT expand collapsed
subtrees — `replace_more(limit=0)` removes every placeholder stub together
with the comments hidden behind it; the result is the breadth-first
flattening of the stub-stripped forest, truncated to at most `limit`
records (after stub removal every flattened entry is a comment, so the
non-comment skip drops nothing and truncate-then-filter equals
filter-then-truncate); on any failure the operation returns the empty
sequence instead of raising. -/
theorem extract_comments_shape (pid : String) (limit : Nat) :
    (∀ e, listCommentsCode pid (.error e) limit = []) ∧
    (∀ forest, listCommentsCode pid (.ok forest) limit =
      ((listQueue (removeMoreL forest)).filterMap (commentRecOf pid)).take limit) ∧
    (∀ forest, (listCommentsCode pid (.ok forest) limit).length ≤ limit) := by
  have key : ∀ forest : List CNode,
      ((listQueue (removeMoreL forest)).take limit).filterMap (commentRecOf pid) =
        ((listQueue (removeMoreL forest)).filterMap (commentRecOf pid)).take limit := by
    intro forest
    apply filterMap_take_of_isSome
    intro x hx
    exact commentRecOf_isSome_of_mem_fuel pid (sizeL (removeMoreL forest))
      (removeMoreL forest) (allComments_removeMore forest) x hx
  refine ⟨fun e => rfl, fun forest => key forest, fun forest => ?_⟩
  show ((((listQueue (removeMoreL forest)).take limit).filterMap
    (commentRecOf pid)).length) ≤ limit
  rw [key forest, List.length_take]
  exact Nat.min_le_left _ _

/-- Counterexample to claim C8: on a forest consisting of one collapsed
placeholder stub hiding one comment, the code returns the empty sequence —
`replace_more(limit=0)` removes the stub instead of expanding it — while
the full-expansion behaviour the claim describes returns the hidden
comment. -/
theorem extract_comments_counterexample :
    listCommentsCode "p9" (.ok demoForest) 20 = [] ∧
    listCommentsSpecFull "p9" demoForest 20 =
      [{ id := "c1", post_id := "p9", author := "bob", body := "hidden reply",
         score := 1, created_utc := 0, parent_id := "t3_p9", is_submitter := false }] ∧
    listCommentsCode "p9" (.ok demoForest) 20 ≠ listCommentsSpecFull "p9" demoForest 20 := by
  refine ⟨rfl, rfl, ?_⟩
  decide
